import Mathlib

/-!
Verification of the Amazon Lex Terraform provider resources
(`resource_aws_lex.go`, `resource_aws_lex_bot.go`, bot-alias resource file):
a shallow embedding of the flatten/expand translation layer and the CRUD
orchestration, with theorems checking the specification's claims.

Conventions of the embedding:
* Go pointers on SDK structs become `Option`; `aws.StringValue`/`aws.Int64Value`
  become `Option.getD "" / 0`.
* A flat Terraform map for a message carries `group_number` as `Option Int`
  where `none` models the key being absent from the map.
* Remote calls are modelled by response oracles passed in as functions; a
  retried call receives the attempt index, so a sequence of remote responses
  is a function `Nat → Except AwsErr _`.
* `resource.Retry`'s wall-clock timeout is modelled by an attempt budget
  (`fuel`): `retry fuel f` performs at most `fuel + 1` attempts and, when the
  budget is exhausted on a retryable error, returns that last error, matching
  the framework's behaviour of surfacing the last retryable error at timeout.
-/

/-! ## Constants of the AWS SDK (`lexmodelbuildingservice`) -/

def ContentTypePlainText : String := "PlainText"

def ContentTypeSsml : String := "SSML"

def ContentTypeCustomPayload : String := "CustomPayload"

def ProcessBehaviorSave : String := "SAVE"

def ProcessBehaviorBuild : String := "BUILD"

def LocaleEnUs : String := "en-US"

/-! ## Domain (SDK) object types

Pointer-typed fields of the Go SDK structs are `Option`s; `aws.String` /
`aws.Int64` always construct a `some`. -/

namespace LexSdk

/-- SDK `lexmodelbuildingservice.Message`. -/
structure Message where
  content : Option String
  contentType : Option String
  groupNumber : Option Int
deriving DecidableEq

/-- SDK `lexmodelbuildingservice.Statement`. -/
structure Statement where
  messages : List Message
  responseCard : Option String
deriving DecidableEq

/-- SDK `lexmodelbuildingservice.Prompt`. -/
structure Prompt where
  maxAttempts : Option Int
  messages : List Message
  responseCard : Option String
deriving DecidableEq

/-- SDK `lexmodelbuildingservice.Intent`. -/
structure Intent where
  intentName : Option String
  intentVersion : Option String
deriving DecidableEq

end LexSdk

/-! ## Flat (Terraform configuration) representations -/

/-- Flat map for a message: keys `content`, `content_type`, `group_number`.
`groupNumber = none` models the `group_number` key being absent from the map. -/
structure FlatMessage where
  content : String
  contentType : String
  groupNumber : Option Int
deriving DecidableEq

/-- Flat map for a statement: key `message` (set of messages, kept here in the
order produced by `Set.List`) and optional key `response_card` (`none` models
the key being absent). -/
structure FlatStatement where
  message : List FlatMessage
  responseCard : Option String
deriving DecidableEq

/-- Flat map for a prompt. -/
structure FlatPrompt where
  maxAttempts : Int
  message : List FlatMessage
  responseCard : Option String
deriving DecidableEq

/-- Flat map for an intent reference. -/
structure FlatIntent where
  intentName : String
  intentVersion : String
deriving DecidableEq

/-! ## Translation layer (`resource_aws_lex.go`) -/

/-- Go `expandLexObject`: `v.([]interface{})[0]` — unwraps a single-item list.
Indexing an empty slice panics in Go; the panic is modelled by `none`, so the
`none` result stands for a loud failure, not a silently returned empty map. -/
def expandLexObject {α : Type} (v : List α) : Option α :=
  v.head?

/-- Go `flattenLexObject`: wraps a map into a one-element slice. -/
def flattenLexObject {α : Type} (m : α) : List α :=
  [m]

/-- Go `flattenLexMessages`: each domain message becomes a flat map; the
`group_number` key is always written, with `aws.Int64Value` turning an absent
(`nil`) group number into `0`. -/
def flattenLexMessages (messages : List LexSdk.Message) : List FlatMessage :=
  messages.map fun message =>
    { content := message.content.getD ""
      contentType := message.contentType.getD ""
      groupNumber := some (message.groupNumber.getD 0) }

/-- Go `expandLexMessages`: `content` and `content_type` are always copied;
`GroupNumber` is set only when the `group_number` key is present and its value
is non-zero (`ok && v != 0`). -/
def expandLexMessages (rawValues : List FlatMessage) : List LexSdk.Message :=
  rawValues.map fun rawValue =>
    { content := some rawValue.content
      contentType := some rawValue.contentType
      groupNumber :=
        match rawValue.groupNumber with
        | some v => if v ≠ 0 then some v else none
        | none => none }

/-- Go `flattenLexStatement`: always emits the `message` key; emits
`response_card` only when the domain value is non-nil. -/
def flattenLexStatement (statement : LexSdk.Statement) : FlatStatement :=
  { message := flattenLexMessages statement.messages
    responseCard := statement.responseCard }

/-- Go `expandLexStatement`: expands the message set; sets `ResponseCard` only
when the `response_card` key is present and non-empty (`ok && v != ""`). -/
def expandLexStatement (m : FlatStatement) : LexSdk.Statement :=
  { messages := expandLexMessages m.message
    responseCard :=
      match m.responseCard with
      | some v => if v ≠ "" then some v else none
      | none => none }

/-- Go `flattenLexPrompt`. -/
def flattenLexPrompt (prompt : LexSdk.Prompt) : FlatPrompt :=
  { maxAttempts := prompt.maxAttempts.getD 0
    message := flattenLexMessages prompt.messages
    responseCard := prompt.responseCard }

/-- Go `expandLexPrompt`. -/
def expandLexPrompt (m : FlatPrompt) : LexSdk.Prompt :=
  { maxAttempts := some m.maxAttempts
    messages := expandLexMessages m.message
    responseCard :=
      match m.responseCard with
      | some v => if v ≠ "" then some v else none
      | none => none }

/-- Go `flattenLexIntents`. -/
def flattenLexIntents (intents : List LexSdk.Intent) : List FlatIntent :=
  intents.map fun intent =>
    { intentName := intent.intentName.getD ""
      intentVersion := intent.intentVersion.getD "" }

/-- Go `expandLexIntents`. -/
def expandLexIntents (rawValues : List FlatIntent) : List LexSdk.Intent :=
  rawValues.map fun rawValue =>
    { intentName := some rawValue.intentName
      intentVersion := some rawValue.intentVersion }

/-- The effect of `flattenLexMessages ∘ expandLexMessages` on one flat
message: the content fields are kept and `group_number` is normalised, an
absent (or zero) value becoming `0`. -/
def normalizeFlatMessage (m : FlatMessage) : FlatMessage :=
  { m with groupNumber := some (m.groupNumber.getD 0) }

/-- Schema validity of a flat message (`lexMessageResource`): content length
1–1000, content type in the enum, `group_number` absent or between 1 and 5. -/
def validFlatMessage (m : FlatMessage) : Prop :=
  1 ≤ m.content.length ∧ m.content.length ≤ 1000
    ∧ (m.contentType = ContentTypePlainText ∨ m.contentType = ContentTypeSsml
        ∨ m.contentType = ContentTypeCustomPayload)
    ∧ (m.groupNumber = none
        ∨ (1 ≤ m.groupNumber.getD 0 ∧ m.groupNumber.getD 0 ≤ 5))

instance (m : FlatMessage) : Decidable (validFlatMessage m) := by
  unfold validFlatMessage; infer_instance

/-! ## BotAlias import (`resourceAwsLexBotAliasImport`) -/

/-- Go `strings.Split(s, ".")`: splits at every dot, preserving empty parts;
the empty string yields `[""]`. -/
def splitDotAux : List Char → List Char → List String
  | [], acc => [String.mk acc.reverse]
  | c :: rest, acc =>
    if c = '.' then String.mk acc.reverse :: splitDotAux rest []
    else splitDotAux rest (c :: acc)

/-- `strings.Split(s, ".")` on a whole string. -/
def stringsSplitDot (s : String) : List String :=
  splitDotAux s.data []

/-- The state seeded by a successful import: `d.SetId`, `bot_name`, `name`. -/
structure ImportResult where
  id : String
  bot_name : String
  name : String
deriving DecidableEq

/-- Go `resourceAwsLexBotAliasImport`: split the composite id on `.`; exactly
two parts are required (`len(parts) != 2` is rejected); the first part seeds
`bot_name`, the second seeds both the identity and `name`. No remote call. -/
def resourceAwsLexBotAliasImport (id : String) : Except String ImportResult :=
  match stringsSplitDot id with
  | [p0, p1] => Except.ok { id := p1, bot_name := p0, name := p1 }
  | _ => Except.error "invalid Lex Bot Alias resource id, expected BOT_NAME.BOT_ALIAS_NAME"

/-! ## Remote errors and the retry combinator -/

/-- Classification of remote-service errors, per `isAWSErr` checks in the
source: `NotFoundException`, `ConflictException`, anything else. -/
inductive AwsErr where
  | notFound
  | conflict
  | other (msg : String)
deriving DecidableEq

/-- The message text of an error, as interpolated by `fmt.Errorf("%s", err)`. -/
def awsErrMsg : AwsErr → String
  | AwsErr.notFound => "NotFoundException"
  | AwsErr.conflict => "ConflictException"
  | AwsErr.other msg => msg

/-- Go `fmt.Sprintf("%q", s)` on a plain identifier: wraps it in quotes. -/
def goQuote (s : String) : String :=
  "\"" ++ s ++ "\""

/-- Result of one body invocation under `resource.Retry`: `done` models the
body returning `nil`, the other two model `resource.RetryableError` and
`resource.NonRetryableError`. -/
inductive RetryDecision where
  | done
  | retryable (e : String)
  | fatal (e : String)
deriving DecidableEq

/-- `resource.Retry`: run the body repeatedly from attempt `i`; `fuel` is the
remaining attempt budget modelling the wall-clock timeout.  A retryable error
with no budget left is surfaced as the (last) error, matching the framework
returning the final retryable error at timeout. -/
def retryFrom (f : Nat → RetryDecision) : Nat → Nat → Except String Unit
  | i, 0 =>
    match f i with
    | RetryDecision.done => Except.ok ()
    | RetryDecision.retryable e => Except.error e
    | RetryDecision.fatal e => Except.error e
  | i, fuel + 1 =>
    match f i with
    | RetryDecision.done => Except.ok ()
    | RetryDecision.retryable _ => retryFrom f (i + 1) fuel
    | RetryDecision.fatal e => Except.error e

/-- `resource.Retry` with a budget of `fuel` further attempts after the first. -/
def retry (fuel : Nat) (f : Nat → RetryDecision) : Except String Unit :=
  retryFrom f 0 fuel

theorem retryFrom_done (f : Nat → RetryDecision) (i fuel : Nat)
    (h : f i = RetryDecision.done) : retryFrom f i fuel = Except.ok () := by
  cases fuel <;> simp [retryFrom, h]

theorem retryFrom_fatal (f : Nat → RetryDecision) (i fuel : Nat) (e : String)
    (h : f i = RetryDecision.fatal e) : retryFrom f i fuel = Except.error e := by
  cases fuel <;> simp [retryFrom, h]

theorem retryFrom_step (f : Nat → RetryDecision) (i fuel : Nat) (e : String)
    (h : f i = RetryDecision.retryable e) :
    retryFrom f i (fuel + 1) = retryFrom f (i + 1) fuel := by
  simp [retryFrom, h]

/-- Skipping over a run of retryable attempts consumes that much budget. -/
theorem retryFrom_retryableLead (f : Nat → RetryDecision) (e : String) :
    ∀ (n i fuel : Nat), n ≤ fuel →
      (∀ j, j < n → f (i + j) = RetryDecision.retryable e) →
      retryFrom f i fuel = retryFrom f (i + n) (fuel - n) := by
  intro n
  induction n with
  | zero => intro i fuel _ _; simp
  | succ n ih =>
    intro i fuel hn hlead
    match fuel, hn with
    | fuel' + 1, hn =>
      have h0 : f i = RetryDecision.retryable e := by
        simpa using hlead 0 (Nat.succ_pos n)
      rw [retryFrom_step f i fuel' e h0]
      have hrec := ih (i + 1) fuel' (Nat.le_of_succ_le_succ hn) (fun j hj => by
        have := hlead (j + 1) (Nat.succ_lt_succ hj)
        simpa [Nat.add_assoc, Nat.add_comm 1 j] using this)
      have hi : i + 1 + n = i + (n + 1) := by omega
      have hfuel : fuel' - n = fuel' + 1 - (n + 1) := by omega
      rw [hrec, hi, hfuel]

/-- A body that is retryable forever exhausts any budget with its error. -/
theorem retryFrom_allRetryable (f : Nat → RetryDecision) (e : String)
    (h : ∀ j, f j = RetryDecision.retryable e) :
    ∀ (fuel i : Nat), retryFrom f i fuel = Except.error e := by
  intro fuel
  induction fuel with
  | zero => intro i; simp [retryFrom, h i]
  | succ fuel ih =>
    intro i
    rw [retryFrom_step f i fuel e (h i)]
    exact ih (i + 1)

/-! ## Bot resource (`resource_aws_lex_bot.go`) -/

/-- SDK `PutBotInput` (the fields the resource populates). -/
structure PutBotInput where
  abortStatement : LexSdk.Statement
  checksum : Option String
  childDirected : Bool
  clarificationPrompt : LexSdk.Prompt
  idleSessionTTLInSeconds : Int
  intents : List LexSdk.Intent
  locale : String
  name : String
  processBehavior : String
  description : Option String
  voiceId : Option String
deriving DecidableEq

/-- SDK `GetBotOutput` (the fields the resource reads).  The remote API does
not return `process_behavior`, so this structure has no such field.  `voiceId`
stays optional because `resourceAwsLexBotRead` nil-checks it; the other
pointer fields are dereferenced unconditionally via `d.Set`. -/
structure GetBotOutput where
  abortStatement : LexSdk.Statement
  checksum : String
  childDirected : Bool
  clarificationPrompt : LexSdk.Prompt
  description : String
  failureReason : String
  idleSessionTTLInSeconds : Int
  intents : List LexSdk.Intent
  locale : String
  name : String
  status : String
  version : String
  voiceId : Option String
deriving DecidableEq

/-- The Terraform resource data `d` for a bot: identity (`d.Id()`) plus the
schema fields.  `abort_statement` and `clarification_prompt` are the single
nested objects (schema `MinItems: 1, MaxItems: 1` guarantees exactly one).
An optional string field whose value is `""` is unset for `d.GetOk`. -/
structure BotState where
  id : String
  abort_statement : FlatStatement
  checksum : String
  child_directed : Bool
  clarification_prompt : FlatPrompt
  description : String
  failure_reason : String
  idle_session_ttl_in_seconds : Int
  intent : List FlatIntent
  locale : String
  name : String
  process_behavior : String
  status : String
  version : String
  voice_id : String
deriving DecidableEq

/-- The `PutBotInput` built by `resourceAwsLexBotCreate`: no checksum, the
name from the `name` field, `description`/`voice_id` only when `d.GetOk`
reports them set. -/
def mkPutBotInputCreate (d : BotState) : PutBotInput :=
  { abortStatement := expandLexStatement d.abort_statement
    checksum := none
    childDirected := d.child_directed
    clarificationPrompt := expandLexPrompt d.clarification_prompt
    idleSessionTTLInSeconds := d.idle_session_ttl_in_seconds
    intents := expandLexIntents d.intent
    locale := d.locale
    name := d.name
    processBehavior := d.process_behavior
    description := if d.description ≠ "" then some d.description else none
    voiceId := if d.voice_id ≠ "" then some d.voice_id else none }

/-- The `PutBotInput` built by `resourceAwsLexBotUpdate`: same as the create
input except that the current checksum is attached and the name is `d.Id()`. -/
def mkPutBotInputUpdate (d : BotState) : PutBotInput :=
  { abortStatement := expandLexStatement d.abort_statement
    checksum := some d.checksum
    childDirected := d.child_directed
    clarificationPrompt := expandLexPrompt d.clarification_prompt
    idleSessionTTLInSeconds := d.idle_session_ttl_in_seconds
    intents := expandLexIntents d.intent
    locale := d.locale
    name := d.id
    processBehavior := d.process_behavior
    description := if d.description ≠ "" then some d.description else none
    voiceId := if d.voice_id ≠ "" then some d.voice_id else none }

/-- Go `resourceAwsLexBotRead`, with the outcome of the one `GetBot` call
passed in.  Not-found clears the identity and reports no error; any other
failure is surfaced; on success every schema field is written from the
response except `process_behavior`, which is rebuilt from the last configured
value (default `SAVE`) because the API does not return it, and `voice_id`,
which is written only when the response carries a non-nil value. -/
def resourceAwsLexBotRead (get : Except AwsErr GetBotOutput) (d : BotState) :
    BotState × Except String Unit :=
  match get with
  | Except.error AwsErr.notFound => ({ d with id := "" }, Except.ok ())
  | Except.error e => (d, Except.error ("error getting bot: " ++ awsErrMsg e))
  | Except.ok resp =>
    ({ d with
        abort_statement := flattenLexStatement resp.abortStatement
        checksum := resp.checksum
        child_directed := resp.childDirected
        clarification_prompt := flattenLexPrompt resp.clarificationPrompt
        description := resp.description
        failure_reason := resp.failureReason
        idle_session_ttl_in_seconds := resp.idleSessionTTLInSeconds
        intent := flattenLexIntents resp.intents
        locale := resp.locale
        name := resp.name
        process_behavior :=
          if d.process_behavior ≠ "" then d.process_behavior else ProcessBehaviorSave
        status := resp.status
        version := resp.version
        voice_id :=
          match resp.voiceId with
          | some v => v
          | none => d.voice_id },
      Except.ok ())

/-- Go `resourceAwsLexBotCreate`: build the put input, issue `PutBot` once;
on failure return the wrapped error without touching the identity; on success
adopt the bot name as the identity (`d.SetId(name)`) and run Read. -/
def resourceAwsLexBotCreate (put : PutBotInput → Except AwsErr Unit)
    (get : Except AwsErr GetBotOutput) (d : BotState) :
    BotState × Except String Unit :=
  match put (mkPutBotInputCreate d) with
  | Except.error e =>
    (d, Except.error ("error creating bot " ++ d.name ++ ": " ++ awsErrMsg e))
  | Except.ok _ => resourceAwsLexBotRead get { d with id := d.name }

/-- The body run under `resource.Retry` by `resourceAwsLexBotUpdate`: a
conflict is retryable, any other error is fatal. -/
def botUpdateStep (put : PutBotInput → Nat → Except AwsErr Unit)
    (input : PutBotInput) (id : String) (i : Nat) : RetryDecision :=
  match put input i with
  | Except.ok _ => RetryDecision.done
  | Except.error AwsErr.conflict =>
    RetryDecision.retryable (goQuote id ++ ": bot still updating")
  | Except.error e => RetryDecision.fatal (awsErrMsg e)

/-- Go `resourceAwsLexBotUpdate`: the put input is built once and retried
unchanged while the remote reports conflicts, bounded by the update timeout
(`fuel`); a retry failure is wrapped naming the bot id; success re-runs Read. -/
def resourceAwsLexBotUpdate (fuel : Nat)
    (put : PutBotInput → Nat → Except AwsErr Unit)
    (get : Except AwsErr GetBotOutput) (d : BotState) :
    BotState × Except String Unit :=
  match retry fuel (botUpdateStep put (mkPutBotInputUpdate d) d.id) with
  | Except.error e =>
    (d, Except.error ("error updating bot " ++ d.id ++ ": " ++ e))
  | Except.ok _ => resourceAwsLexBotRead get d

/-! ## BotAlias resource (delete and import) -/

/-- The Terraform resource data for a bot alias. -/
structure BotAliasState where
  id : String
  bot_name : String
  bot_version : String
  checksum : String
  description : String
  name : String
deriving DecidableEq

/-- SDK `DeleteBotAliasInput`. -/
structure DeleteBotAliasInput where
  botName : String
  name : String
deriving DecidableEq

/-- SDK `GetBotAliasInput`. -/
structure GetBotAliasInput where
  botName : String
  name : String
deriving DecidableEq

/-- The body of the first `resource.Retry` in `resourceAwsLexBotAliasDelete`:
`DeleteBotAlias` with a conflict retried, any other error fatal. -/
def botAliasDeleteStep (del : DeleteBotAliasInput → Nat → Except AwsErr Unit)
    (input : DeleteBotAliasInput) (id : String) (i : Nat) : RetryDecision :=
  match del input i with
  | Except.ok _ => RetryDecision.done
  | Except.error AwsErr.conflict =>
    RetryDecision.retryable (goQuote id ++ ": bot alias still deleting")
  | Except.error e => RetryDecision.fatal (awsErrMsg e)

/-- The body of the second `resource.Retry` in `resourceAwsLexBotAliasDelete`,
transcribed exactly from the source: when `GetBotAlias` returns an error that
is not-found the body returns `nil`; any other error is non-retryable; and
when the call succeeds — the alias still exists — the body also returns
`nil`.  No branch returns a retryable error. -/
def botAliasPollStep (get : GetBotAliasInput → Nat → Except AwsErr Unit)
    (input : GetBotAliasInput) (i : Nat) : RetryDecision :=
  match get input i with
  | Except.error AwsErr.notFound => RetryDecision.done
  | Except.error e => RetryDecision.fatal (awsErrMsg e)
  | Except.ok _ => RetryDecision.done

/-- Go `resourceAwsLexBotAliasDelete`: retry `DeleteBotAlias` past conflicts
under the delete timeout, wrapping a failure with the alias id; then run the
second retry loop (the source comment reads "Ensure the bot alias is actually
deleted before moving on"), whose result is returned directly. -/
def resourceAwsLexBotAliasDelete (fuel : Nat)
    (del : DeleteBotAliasInput → Nat → Except AwsErr Unit)
    (get : GetBotAliasInput → Nat → Except AwsErr Unit)
    (d : BotAliasState) : Except String Unit :=
  match retry fuel (botAliasDeleteStep del ⟨d.bot_name, d.name⟩ d.id) with
  | Except.error e =>
    Except.error ("error deleting bot alias " ++ d.id ++ ": " ++ e)
  | Except.ok _ =>
    retry fuel (botAliasPollStep get ⟨d.bot_name, d.name⟩)

/-! ## Sample values used by witness theorems -/

def sampleFlatMessage : FlatMessage :=
  { content := "I cannot help with that", contentType := "PlainText", groupNumber := some 1 }

def sampleFlatStatement : FlatStatement :=
  { message := [sampleFlatMessage], responseCard := none }

def sampleFlatPrompt : FlatPrompt :=
  { maxAttempts := 2, message := [sampleFlatMessage], responseCard := none }

def sampleBotState : BotState :=
  { id := "OrderFlowersBot"
    abort_statement := sampleFlatStatement
    checksum := "chk"
    child_directed := false
    clarification_prompt := sampleFlatPrompt
    description := ""
    failure_reason := ""
    idle_session_ttl_in_seconds := 300
    intent := [{ intentName := "OrderFlowers", intentVersion := "1" }]
    locale := LocaleEnUs
    name := "OrderFlowersBot"
    process_behavior := ProcessBehaviorSave
    status := ""
    version := "$LATEST"
    voice_id := "" }

def sampleGetBotOutput : GetBotOutput :=
  { abortStatement := expandLexStatement sampleFlatStatement
    checksum := "chk"
    childDirected := false
    clarificationPrompt := expandLexPrompt sampleFlatPrompt
    description := ""
    failureReason := ""
    idleSessionTTLInSeconds := 300
    intents := [{ intentName := some "OrderFlowers", intentVersion := some "1" }]
    locale := LocaleEnUs
    name := "OrderFlowersBot"
    status := "READY"
    version := "$LATEST"
    voiceId := none }

def sampleAliasState : BotAliasState :=
  { id := "OrderFlowersProd"
    bot_name := "OrderFlowers"
    bot_version := "1"
    checksum := "chk"
    description := ""
    name := "OrderFlowersProd" }

/-! ## Helper lemmas shared by the claim theorems -/

/-- Flatten after expand normalises every message's `group_number` and keeps
everything else, in order. -/
theorem flattenLexMessages_expandLexMessages (msgs : List FlatMessage) :
    flattenLexMessages (expandLexMessages msgs) = msgs.map normalizeFlatMessage := by
  induction msgs with
  | nil => rfl
  | cons m rest ih =>
    simp only [flattenLexMessages, expandLexMessages, List.map_cons] at ih ⊢
    refine congrArg₂ List.cons ?_ ih
    cases hg : m.groupNumber with
    | none => simp [normalizeFlatMessage, hg]
    | some g =>
      by_cases h0 : g = 0 <;> simp [normalizeFlatMessage, hg, h0]

/-- A map whose function fixes every member of the list is the identity. -/
theorem listMap_fixpoints {α : Type} (f : α → α) :
    ∀ (l : List α), (∀ m ∈ l, f m = m) → l.map f = l := by
  intro l
  induction l with
  | nil => intro _; rfl
  | cons a t ih =>
    intro h
    simp only [List.map_cons]
    rw [h a (by simp), ih (fun x hx => h x (by simp [hx]))]

/-! ## Claim theorems -/

/-- Claim C3: for every valid flat message (content 1–1000 chars, content
type in the enum, `group_number` absent or 1–5), flattening the expansion of
`[m]` reproduces the flat fields exactly up to `group_number` normalisation —
an absent `group_number` becomes `0` — and the round trip cannot distinguish
an absent `group_number` from a supplied `0`. -/
theorem lexMessage_roundtrip (m : FlatMessage) (hv : validFlatMessage m) :
    flattenLexMessages (expandLexMessages [m]) = [normalizeFlatMessage m]
  ∧ (m.groupNumber ≠ none → flattenLexMessages (expandLexMessages [m]) = [m])
  ∧ flattenLexMessages (expandLexMessages [{ m with groupNumber := none }])
      = flattenLexMessages (expandLexMessages [{ m with groupNumber := some 0 }]) := by
  refine ⟨by rw [flattenLexMessages_expandLexMessages]; rfl, ?_, ?_⟩
  · intro hne
    rw [flattenLexMessages_expandLexMessages]
    obtain ⟨mc, mct, mg⟩ := m
    cases mg with
    | none => simp at hne
    | some g => simp [normalizeFlatMessage]
  · simp [flattenLexMessages, expandLexMessages]

/-- Claim C3 witness: a concrete valid message with a present group number
round-trips exactly. -/
theorem lexMessage_roundtrip_witness :
    flattenLexMessages (expandLexMessages
        [({ content := "hello", contentType := "PlainText", groupNumber := some 2 } : FlatMessage)])
      = [({ content := "hello", contentType := "PlainText", groupNumber := some 2 } : FlatMessage)] :=
  (lexMessage_roundtrip
      { content := "hello", contentType := "PlainText", groupNumber := some 2 }
      (by decide)).2.1 (by decide)

/-- Claim C7: wrapping any map with `flattenLexObject` and unwrapping with
`expandLexObject` yields the same map, and unwrapping an empty list yields
`none`, the model of Go's index-out-of-range panic — a loud failure, never a
silently returned empty map. -/
theorem lexObject_wrap_unwrap {α : Type} (m : α) :
    expandLexObject (flattenLexObject m) = some m
  ∧ expandLexObject ([] : List α) = none :=
  ⟨rfl, rfl⟩

/-- Claim C9: `expandLexMessages` sets the domain `GroupNumber` only when the
flat `group_number` is present and non-zero (a present `0` is treated as
absent), and `flattenLexMessages` emits `group_number = 0` for every domain
message whose `GroupNumber` is nil. -/
theorem lexMessages_group_number_convention (c ct : String) (g : Int)
    (dm : LexSdk.Message) :
    (expandLexMessages [{ content := c, contentType := ct, groupNumber := some g }]).map
        LexSdk.Message.groupNumber = [if g = 0 then none else some g]
  ∧ (expandLexMessages [{ content := c, contentType := ct, groupNumber := none }]).map
        LexSdk.Message.groupNumber = [none]
  ∧ (dm.groupNumber = none →
      (flattenLexMessages [dm]).map FlatMessage.groupNumber = [some 0]) := by
  refine ⟨?_, by simp [expandLexMessages], fun h => by simp [flattenLexMessages, h]⟩
  by_cases h0 : g = 0 <;> simp [expandLexMessages, h0]

/-- Claim C9 witness: a nil `GroupNumber` flattens to `group_number = 0`. -/
theorem lexMessages_group_number_convention_witness :
    (flattenLexMessages
        [({ content := some "hi", contentType := some "PlainText", groupNumber := none } :
          LexSdk.Message)]).map FlatMessage.groupNumber = [some 0] :=
  (lexMessages_group_number_convention "hi" "PlainText" 3
      { content := some "hi", contentType := some "PlainText", groupNumber := none }).2.2 rfl

/-- Claim C8 counterexample: the claim says expand-then-flatten is the
identity on the set of messages, but a message whose `group_number` key is
absent comes back with `group_number = 0`, so already the singleton message
set is not preserved. -/
theorem lexStatement_roundtrip_not_set_identity :
    (flattenLexStatement (expandLexStatement
        { message := [{ content := "hi", contentType := "PlainText", groupNumber := none }],
          responseCard := none })).message
      = [{ content := "hi", contentType := "PlainText", groupNumber := some 0 }]
  ∧ ([({ content := "hi", contentType := "PlainText", groupNumber := some 0 } : FlatMessage)]
      ≠ [({ content := "hi", contentType := "PlainText", groupNumber := none } : FlatMessage)]) :=
  ⟨rfl, by decide⟩

/-- Claim C8 (amended): for every flat statement with 1–15 messages,
expand-then-flatten maps the message collection, order preserved, to the same
messages with `group_number` normalised (absent becomes `0`); it is the
identity on the messages when every message carries a present non-zero
`group_number`; and `response_card` appears in the flattened output exactly
when a non-empty `response_card` was supplied, with its value preserved. -/
theorem lexStatement_roundtrip_normalized (st : FlatStatement)
    (_hlen : 1 ≤ st.message.length ∧ st.message.length ≤ 15) :
    (flattenLexStatement (expandLexStatement st)).message
        = st.message.map normalizeFlatMessage
  ∧ ((∀ m ∈ st.message, m.groupNumber ≠ none ∧ m.groupNumber.getD 0 ≠ 0) →
      (flattenLexStatement (expandLexStatement st)).message = st.message)
  ∧ ((flattenLexStatement (expandLexStatement st)).responseCard ≠ none
        ↔ ∃ s, st.responseCard = some s ∧ s ≠ "")
  ∧ (∀ s, st.responseCard = some s → s ≠ "" →
      (flattenLexStatement (expandLexStatement st)).responseCard = some s) := by
  have hmsg : (flattenLexStatement (expandLexStatement st)).message
      = st.message.map normalizeFlatMessage := by
    simpa [flattenLexStatement, expandLexStatement] using
      flattenLexMessages_expandLexMessages st.message
  refine ⟨hmsg, ?_, ?_, ?_⟩
  · intro hall
    rw [hmsg]
    refine listMap_fixpoints normalizeFlatMessage st.message ?_
    intro m hm
    obtain ⟨hne, -⟩ := hall m hm
    obtain ⟨mc, mct, mg⟩ := m
    cases mg with
    | none => simp at hne
    | some g => simp [normalizeFlatMessage]
  · cases hrc : st.responseCard with
    | none => simp [flattenLexStatement, expandLexStatement, hrc]
    | some s =>
      by_cases hs : s = "" <;>
        simp [flattenLexStatement, expandLexStatement, hrc, hs]
  · intro s hrc hs
    simp [flattenLexStatement, expandLexStatement, hrc, hs]

/-- Claim C8 witness: a concrete statement whose only message carries a
present non-zero group number round-trips to the same message list. -/
theorem lexStatement_roundtrip_normalized_witness :
    (flattenLexStatement (expandLexStatement sampleFlatStatement)).message
      = sampleFlatStatement.message :=
  (lexStatement_roundtrip_normalized sampleFlatStatement (by decide)).2.1 (by decide)

/-- Claim C2 counterexample: the claim requires both split parts to be
non-empty, rejecting for instance an identifier with an empty alias part; but
the code only checks that the split has exactly two parts, so
`"OrderFlowers."` — whose second part is empty — is accepted, seeding an empty
`name` and identity instead of failing with a format error. -/
theorem botAliasImport_accepts_empty_alias_part :
    stringsSplitDot "OrderFlowers." = ["OrderFlowers", ""]
  ∧ resourceAwsLexBotAliasImport "OrderFlowers."
      = Except.ok { id := "", bot_name := "OrderFlowers", name := "" } :=
  ⟨rfl, rfl⟩

/-- Claim C2 (amended): import succeeds exactly when splitting the identifier
on the dot yields exactly two parts — empty parts included; a successful
one seeds `bot_name` from the first part and both `name` and the identity
from the second, with no remote call; every other split length is rejected
with the format error. -/
theorem botAliasImport_characterization (s : String) :
    ((∃ r, resourceAwsLexBotAliasImport s = Except.ok r)
        ↔ (stringsSplitDot s).length = 2)
  ∧ (∀ r, resourceAwsLexBotAliasImport s = Except.ok r →
        (stringsSplitDot s)[0]? = some r.bot_name
      ∧ (stringsSplitDot s)[1]? = some r.name
      ∧ r.id = r.name)
  ∧ ((stringsSplitDot s).length ≠ 2 →
      resourceAwsLexBotAliasImport s
        = Except.error "invalid Lex Bot Alias resource id, expected BOT_NAME.BOT_ALIAS_NAME") := by
  cases h : stringsSplitDot s with
  | nil => simp [resourceAwsLexBotAliasImport, h]
  | cons a t =>
    cases t with
    | nil => simp [resourceAwsLexBotAliasImport, h]
    | cons b t2 =>
      cases t2 with
      | nil =>
        refine ⟨by simp [resourceAwsLexBotAliasImport, h], ?_, by simp⟩
        intro r hr
        simp only [resourceAwsLexBotAliasImport, h, Except.ok.injEq] at hr
        subst hr
        simp
      | cons c t3 => simp [resourceAwsLexBotAliasImport, h]

/-- Claim C2 witness: an identifier with no dot is rejected with the format
error. -/
theorem botAliasImport_characterization_witness :
    resourceAwsLexBotAliasImport "OrderFlowers"
      = Except.error "invalid Lex Bot Alias resource id, expected BOT_NAME.BOT_ALIAS_NAME" :=
  (botAliasImport_characterization "OrderFlowers").2.2 (by decide)

/-- Claim C4: Bot Read on a not-found response clears the identity and
returns no error; any other `GetBot` failure is surfaced as an error; a
successful response never produces an error, so not-found is never fatal. -/
theorem botRead_notFound_clears_identity (d : BotState) (resp : GetBotOutput)
    (e : AwsErr) (he : e ≠ AwsErr.notFound) :
    resourceAwsLexBotRead (Except.error AwsErr.notFound) d
        = ({ d with id := "" }, Except.ok ())
  ∧ resourceAwsLexBotRead (Except.error e) d
        = (d, Except.error ("error getting bot: " ++ awsErrMsg e))
  ∧ (resourceAwsLexBotRead (Except.ok resp) d).2 = Except.ok () := by
  refine ⟨rfl, ?_, rfl⟩
  cases e with
  | notFound => exact absurd rfl he
  | conflict => rfl
  | other msg => rfl

/-- Claim C4 witness: a conflict error from `GetBot` is surfaced. -/
theorem botRead_notFound_clears_identity_witness :
    resourceAwsLexBotRead (Except.error AwsErr.conflict) sampleBotState
      = (sampleBotState, Except.error ("error getting bot: " ++ awsErrMsg AwsErr.conflict)) :=
  (botRead_notFound_clears_identity sampleBotState sampleGetBotOutput
      AwsErr.conflict (by decide)).2.1

/-- Claim C6: after every successful Read the stored `process_behavior` is the
last configured value when one is set, and the `SAVE` default otherwise —
independent of the `GetBot` response, whose type carries no such field. -/
theorem botRead_preserves_process_behavior (d : BotState) (resp : GetBotOutput) :
    (resourceAwsLexBotRead (Except.ok resp) d).1.process_behavior
      = if d.process_behavior ≠ "" then d.process_behavior else ProcessBehaviorSave :=
  rfl

/-- Claim C6 witness: a concrete Read keeps the configured `SAVE` value. -/
theorem botRead_preserves_process_behavior_witness :
    (resourceAwsLexBotRead (Except.ok sampleGetBotOutput) sampleBotState).1.process_behavior
      = ProcessBehaviorSave := by
  rw [botRead_preserves_process_behavior sampleBotState sampleGetBotOutput]
  decide

/-- Claim C7 witness: the wrap/unwrap pair on a concrete statement map. -/
theorem lexObject_wrap_unwrap_witness :
    expandLexObject (flattenLexObject sampleFlatStatement) = some sampleFlatStatement
  ∧ expandLexObject ([] : List FlatStatement) = none :=
  lexObject_wrap_unwrap sampleFlatStatement

/-- Claim C10: Bot Create is atomic on the local identity: a failing `PutBot`
returns the error wrapped with the bot name and leaves the whole state — its
identity included — untouched; on success the name is adopted as the identity
and Read runs on the updated state. -/
theorem botCreate_atomic_identity (d : BotState)
    (put : PutBotInput → Except AwsErr Unit) (get : Except AwsErr GetBotOutput) :
    (∀ e, put (mkPutBotInputCreate d) = Except.error e →
        resourceAwsLexBotCreate put get d
          = (d, Except.error ("error creating bot " ++ d.name ++ ": " ++ awsErrMsg e)))
  ∧ (put (mkPutBotInputCreate d) = Except.ok () →
        resourceAwsLexBotCreate put get d
          = resourceAwsLexBotRead get { d with id := d.name }) := by
  constructor
  · intro e he
    simp [resourceAwsLexBotCreate, he]
  · intro hok
    simp [resourceAwsLexBotCreate, hok]

/-- Claim C10 witness: a concrete failing `PutBot` leaves the state unchanged
and names the bot in the error. -/
theorem botCreate_atomic_identity_witness :
    resourceAwsLexBotCreate (fun _ => Except.error (AwsErr.other "boom"))
        (Except.ok sampleGetBotOutput) sampleBotState
      = (sampleBotState,
          Except.error ("error creating bot " ++ sampleBotState.name ++ ": "
            ++ awsErrMsg (AwsErr.other "boom"))) :=
  (botCreate_atomic_identity sampleBotState (fun _ => Except.error (AwsErr.other "boom"))
      (Except.ok sampleGetBotOutput)).1 (AwsErr.other "boom") rfl

/-- Claim C5: Bot Update retries the unchanged `PutBot` input (the input is
built once, before the retry loop) while the remote reports conflicts: if the
remote answers conflict for `n` attempts and then succeeds within the budget,
Update succeeds and re-runs Read; if conflicts persist through the whole
budget, Update fails with an error naming the bot id and the last underlying
error; a non-conflict error, even after a run of conflicts, is surfaced at
once without further retries. -/
theorem botUpdate_retry_behavior (fuel n : Nat)
    (put : PutBotInput → Nat → Except AwsErr Unit)
    (get : Except AwsErr GetBotOutput) (d : BotState) :
    (n ≤ fuel →
      (∀ i, i < n → put (mkPutBotInputUpdate d) i = Except.error AwsErr.conflict) →
      put (mkPutBotInputUpdate d) n = Except.ok () →
      resourceAwsLexBotUpdate fuel put get d = resourceAwsLexBotRead get d)
  ∧ ((∀ i, put (mkPutBotInputUpdate d) i = Except.error AwsErr.conflict) →
      resourceAwsLexBotUpdate fuel put get d
        = (d, Except.error ("error updating bot " ++ d.id ++ ": "
            ++ (goQuote d.id ++ ": bot still updating"))))
  ∧ (∀ msg, n ≤ fuel →
      (∀ i, i < n → put (mkPutBotInputUpdate d) i = Except.error AwsErr.conflict) →
      put (mkPutBotInputUpdate d) n = Except.error (AwsErr.other msg) →
      resourceAwsLexBotUpdate fuel put get d
        = (d, Except.error ("error updating bot " ++ d.id ++ ": " ++ msg))) := by
  refine ⟨?_, ?_, ?_⟩
  · intro hn hconf hok
    have hlead := retryFrom_retryableLead
      (botUpdateStep put (mkPutBotInputUpdate d) d.id)
      (goQuote d.id ++ ": bot still updating") n 0 fuel hn
      (fun j hj => by simp [botUpdateStep, hconf j hj])
    simp only [Nat.zero_add] at hlead
    have hretry : retry fuel (botUpdateStep put (mkPutBotInputUpdate d) d.id)
        = Except.ok () := by
      unfold retry
      rw [hlead]
      exact retryFrom_done _ _ _ (by simp [botUpdateStep, hok])
    simp [resourceAwsLexBotUpdate, hretry]
  · intro hall
    have hretry : retry fuel (botUpdateStep put (mkPutBotInputUpdate d) d.id)
        = Except.error (goQuote d.id ++ ": bot still updating") :=
      retryFrom_allRetryable _ _ (fun j => by simp [botUpdateStep, hall j]) fuel 0
    simp [resourceAwsLexBotUpdate, hretry]
  · intro msg hn hconf herr
    have hlead := retryFrom_retryableLead
      (botUpdateStep put (mkPutBotInputUpdate d) d.id)
      (goQuote d.id ++ ": bot still updating") n 0 fuel hn
      (fun j hj => by simp [botUpdateStep, hconf j hj])
    simp only [Nat.zero_add] at hlead
    have hretry : retry fuel (botUpdateStep put (mkPutBotInputUpdate d) d.id)
        = Except.error msg := by
      unfold retry
      rw [hlead]
      exact retryFrom_fatal _ _ _ _ (by simp [botUpdateStep, herr, awsErrMsg])
    simp [resourceAwsLexBotUpdate, hretry]

/-- Claim C5 witness: with an immediately succeeding remote, Update reduces to
re-running Read. -/
theorem botUpdate_retry_behavior_witness :
    resourceAwsLexBotUpdate 1 (fun _ _ => Except.ok ())
        (Except.ok sampleGetBotOutput) sampleBotState
      = resourceAwsLexBotRead (Except.ok sampleGetBotOutput) sampleBotState :=
  (botUpdate_retry_behavior 1 0 (fun _ _ => Except.ok ())
      (Except.ok sampleGetBotOutput) sampleBotState).1
    (by omega) (fun i hi => absurd hi (Nat.not_lt_zero i)) rfl

/-- Claim C1 and its divergence from the code: in the poll loop that follows
a successful `DeleteBotAlias`, the body returns success both on not-found and
when `GetBotAlias` still finds the alias, and no branch is retryable — so
Delete returns success after the first poll without ever observing not-found.
Evaluated below at the claim's two scenarios (delete budget 5): a remote whose
first poll still finds the alias and would report not-found only from the
second poll on, and a remote that never reports not-found; Delete returns
success immediately in both, where the claim requires blocking until
not-found in the first and a timeout failure in the second. -/
theorem botAliasDelete_succeeds_while_alias_still_present :
    resourceAwsLexBotAliasDelete 5 (fun _ _ => Except.ok ())
        (fun _ i => if i = 0 then Except.ok () else Except.error AwsErr.notFound)
        sampleAliasState = Except.ok ()
  ∧ resourceAwsLexBotAliasDelete 5 (fun _ _ => Except.ok ())
        (fun _ _ => Except.ok ()) sampleAliasState = Except.ok () :=
  ⟨rfl, rfl⟩
